import Mathlib

/-!
Shallow embedding of the `rbac` crate (file `src/lib.rs`).

The crate stores two relations:
  `data_user_roles       : HashMap<U::Id, HashSet<R::Id>>`
  `data_role_permissions : HashMap<R::Id, HashSet<P::Id>>`

A `HashMap<K, HashSet<V>>` is modelled extensionally as a function
`K → Option (Finset V)` (`none` = key absent, matching `HashMap::get`
returning `None`); a `HashSet` is a `Finset` (unordered, duplicate-free,
which is exactly the observable content of a hash set — iteration order
of the Rust iterators is unspecified).  Entities implementing the Rust
trait `Identifiable` are modelled as a value paired with its id;
`get_rbac_id` projects the id, mirroring the trait method.

Each operation of `impl RbacModel for InMemoryRbac` and of
`impl RbacModelIterators for &InMemoryRbac` is translated clause by
clause; mutating operations return the Rust result together with the
updated store (`&mut self` becomes explicit state passing).
-/

set_option linter.unusedSectionVars false

namespace Rbac

/-- Model of the Rust trait `Identifiable`: an entity value together with
the id that `get_rbac_id` extracts from it. -/
structure Identified (V Id : Type) where
  val : V
  id : Id
deriving DecidableEq, Repr

/-- Rust `Identifiable::get_rbac_id`: projects the id of an entity. -/
def get_rbac_id {V Id : Type} (e : Identified V Id) : Id := e.id

/-- The error enum `InMemoryRbacError` of `src/lib.rs`. -/
inductive InMemoryRbacError where
  | UserHasNoRoles
  | RoleHasNoPermissions
deriving DecidableEq, Repr

/-- The struct `InMemoryRbac`: the two relation maps, and nothing else. -/
@[ext]
structure InMemoryRbac (UId RId PId : Type) where
  data_user_roles : UId → Option (Finset RId)
  data_role_permissions : RId → Option (Finset PId)

variable {UV RV PV UId RId PId : Type}
variable [DecidableEq UId] [DecidableEq RId] [DecidableEq PId]

/-- Rust `InMemoryRbac::new()`: two empty maps. -/
def InMemoryRbac.new : InMemoryRbac UId RId PId :=
  { data_user_roles := fun _ => none
    data_role_permissions := fun _ => none }

/-- Method `iter_user_role_ids` of `impl RbacModelIterators for &InMemoryRbac`:
looks the user's id up in `data_user_roles`; a present key yields its set
of role ids (the contents of the Rust iterator), an absent key yields
`Err(UserHasNoRoles)`. -/
def iter_user_role_ids (s : InMemoryRbac UId RId PId) (user : Identified UV UId) :
    Except InMemoryRbacError (Finset RId) :=
  match s.data_user_roles (get_rbac_id user) with
  | some val => Except.ok val
  | none => Except.error InMemoryRbacError.UserHasNoRoles

/-- Method `iter_role_permission_ids`: symmetric, on `data_role_permissions`,
failing with `RoleHasNoPermissions`. -/
def iter_role_permission_ids (s : InMemoryRbac UId RId PId) (role : Identified RV RId) :
    Except InMemoryRbacError (Finset PId) :=
  match s.data_role_permissions (get_rbac_id role) with
  | some val => Except.ok val
  | none => Except.error InMemoryRbacError.RoleHasNoPermissions

/-- Rust `RbacModel::assign_role` for `InMemoryRbac`:
`entry(user_id).or_insert_with(HashSet::new)` then `entry.insert(role_id)`,
which returns `true` iff the role id was not yet present. -/
def assign_role (s : InMemoryRbac UId RId PId) (user : Identified UV UId)
    (role : Identified RV RId) :
    Except InMemoryRbacError Bool × InMemoryRbac UId RId PId :=
  let entry := (s.data_user_roles (get_rbac_id user)).getD ∅
  (Except.ok (decide (get_rbac_id role ∉ entry)),
   { s with data_user_roles :=
      (Function.update s.data_user_roles (get_rbac_id user)
        (some (insert (get_rbac_id role) entry))) })

/-- Rust `RbacModel::unassign_role` for `InMemoryRbac`: on an occupied entry,
remove the role id (recording whether it was present) and delete the entry
if the set became empty; on a vacant entry return `Ok(false)` untouched. -/
def unassign_role (s : InMemoryRbac UId RId PId) (user : Identified UV UId)
    (role : Identified RV RId) :
    Except InMemoryRbacError Bool × InMemoryRbac UId RId PId :=
  match s.data_user_roles (get_rbac_id user) with
  | some val =>
      let was_present := decide (get_rbac_id role ∈ val)
      let rest := val.erase (get_rbac_id role)
      (Except.ok was_present,
       { s with data_user_roles :=
          (Function.update s.data_user_roles (get_rbac_id user)
            (if rest = ∅ then none else some rest)) })
  | none => (Except.ok false, s)

/-- Rust `RbacModel::add_permission` for `InMemoryRbac`: same shape as
`assign_role`, on `data_role_permissions`. -/
def add_permission (s : InMemoryRbac UId RId PId) (role : Identified RV RId)
    (permission : Identified PV PId) :
    Except InMemoryRbacError Bool × InMemoryRbac UId RId PId :=
  let entry := (s.data_role_permissions (get_rbac_id role)).getD ∅
  (Except.ok (decide (get_rbac_id permission ∉ entry)),
   { s with data_role_permissions :=
      (Function.update s.data_role_permissions (get_rbac_id role)
        (some (insert (get_rbac_id permission) entry))) })

/-- Rust `RbacModel::remove_permission` for `InMemoryRbac`: same shape as
`unassign_role`, on `data_role_permissions`. -/
def remove_permission (s : InMemoryRbac UId RId PId) (role : Identified RV RId)
    (permission : Identified PV PId) :
    Except InMemoryRbacError Bool × InMemoryRbac UId RId PId :=
  match s.data_role_permissions (get_rbac_id role) with
  | some val =>
      let was_present := decide (get_rbac_id permission ∈ val)
      let rest := val.erase (get_rbac_id permission)
      (Except.ok was_present,
       { s with data_role_permissions :=
          (Function.update s.data_role_permissions (get_rbac_id role)
            (if rest = ∅ then none else some rest)) })
  | none => (Except.ok false, s)

/-- Default method `RbacModel::user_has_role`: iterate the user's role
ids and test `any(|r| r == role.get_rbac_id())`; a lookup error is mapped
to `Ok(false)`. -/
def user_has_role (s : InMemoryRbac UId RId PId) (user : Identified UV UId)
    (role : Identified RV RId) : Except InMemoryRbacError Bool :=
  match iter_user_role_ids s user with
  | Except.ok val => Except.ok (decide (∃ r ∈ val, r = get_rbac_id role))
  | Except.error _ => Except.ok false

/-- Default method `RbacModel::role_has_permission`: symmetric to
`user_has_role` over the permission iteration. -/
def role_has_permission (s : InMemoryRbac UId RId PId) (role : Identified RV RId)
    (permission : Identified PV PId) : Except InMemoryRbacError Bool :=
  match iter_role_permission_ids s role with
  | Except.ok val => Except.ok (decide (∃ p ∈ val, p = get_rbac_id permission))
  | Except.error _ => Except.ok false

/-- The closure body inside `user_has_permission`:
`match self.data_role_permissions.get(r) { Some(val) => val.contains(pid), None => false }`. -/
def role_set_contains (s : InMemoryRbac UId RId PId) (pid : PId) (r : RId) : Bool :=
  match s.data_role_permissions r with
  | some val => decide (pid ∈ val)
  | none => false

/-- Method `user_has_permission` of `impl RbacModel for InMemoryRbac`: look the
user up in `data_user_roles`; if present, `any` over its role ids of the
permission-set membership test; if absent, `Ok(false)`. -/
def user_has_permission (s : InMemoryRbac UId RId PId) (user : Identified UV UId)
    (permission : Identified PV PId) : Except InMemoryRbacError Bool :=
  match s.data_user_roles (get_rbac_id user) with
  | some val =>
      Except.ok (decide (∃ r ∈ val, role_set_contains s (get_rbac_id permission) r = true))
  | none => Except.ok false

/-- The role-id set held for a user: the map entry, an absent key reading
as the empty set (the view `entry(..).or_insert_with(HashSet::new)` takes). -/
def userRoleSet (s : InMemoryRbac UId RId PId) (uid : UId) : Finset RId :=
  (s.data_user_roles uid).getD ∅

/-- The permission-id set held for a role, absent key reading as empty. -/
def rolePermSet (s : InMemoryRbac UId RId PId) (rid : RId) : Finset PId :=
  (s.data_role_permissions rid).getD ∅

/-- The pruning invariant of the store: a key present in either relation
map carries a non-empty set (absent ⇔ empty; an empty set is never
stored). -/
def Pruned (s : InMemoryRbac UId RId PId) : Prop :=
  (∀ uid S, s.data_user_roles uid = some S → S ≠ ∅) ∧
  (∀ rid S, s.data_role_permissions rid = some S → S ≠ ∅)

/-- States reachable from `InMemoryRbac::new()` by the four mutating
operations (which consult only entity ids, so `Unit`-valued entities
range over every possible call). -/
inductive Reachable : InMemoryRbac UId RId PId → Prop where
  | new : Reachable InMemoryRbac.new
  | assign (s : InMemoryRbac UId RId PId) (u : Identified Unit UId) (r : Identified Unit RId) :
      Reachable s → Reachable (assign_role s u r).2
  | unassign (s : InMemoryRbac UId RId PId) (u : Identified Unit UId) (r : Identified Unit RId) :
      Reachable s → Reachable (unassign_role s u r).2
  | addPerm (s : InMemoryRbac UId RId PId) (r : Identified Unit RId) (p : Identified Unit PId) :
      Reachable s → Reachable (add_permission s r p).2
  | removePerm (s : InMemoryRbac UId RId PId) (r : Identified Unit RId) (p : Identified Unit PId) :
      Reachable s → Reachable (remove_permission s r p).2

/-- Pruning consequence on the user side: whenever a user's entry holds
exactly one role id, unassigning that role makes a subsequent
`iter_user_role_ids` fail with `UserHasNoRoles` (entity values are
irrelevant to the store, so `Unit`-valued entities lose no generality). -/
def LastRolePrunes (s : InMemoryRbac UId RId PId) : Prop :=
  ∀ (u : Identified Unit UId) (r : Identified Unit RId),
    s.data_user_roles (get_rbac_id u) = some {get_rbac_id r} →
    iter_user_role_ids (unassign_role s u r).2 u =
      Except.error InMemoryRbacError.UserHasNoRoles

/-- Pruning consequence on the role side: removing a role's only
permission makes a subsequent `iter_role_permission_ids` fail with
`RoleHasNoPermissions`. -/
def LastPermissionPrunes (s : InMemoryRbac UId RId PId) : Prop :=
  ∀ (r : Identified Unit RId) (p : Identified Unit PId),
    s.data_role_permissions (get_rbac_id r) = some {get_rbac_id p} →
    iter_role_permission_ids (remove_permission s r p).2 r =
      Except.error InMemoryRbacError.RoleHasNoPermissions

/-! Helper lemmas characterising the operations through the two views
`userRoleSet` / `rolePermSet`. -/

lemma assign_role_eq (s : InMemoryRbac UId RId PId) (u : Identified UV UId)
    (r : Identified RV RId) :
    assign_role s u r =
      (Except.ok (decide (get_rbac_id r ∉ userRoleSet s (get_rbac_id u))),
       { s with data_user_roles :=
          (Function.update s.data_user_roles (get_rbac_id u)
            (some (insert (get_rbac_id r) (userRoleSet s (get_rbac_id u))))) }) := rfl

lemma add_permission_eq (s : InMemoryRbac UId RId PId) (ro : Identified RV RId)
    (p : Identified PV PId) :
    add_permission s ro p =
      (Except.ok (decide (get_rbac_id p ∉ rolePermSet s (get_rbac_id ro))),
       { s with data_role_permissions :=
          (Function.update s.data_role_permissions (get_rbac_id ro)
            (some (insert (get_rbac_id p) (rolePermSet s (get_rbac_id ro))))) }) := rfl

lemma unassign_role_occupied (s : InMemoryRbac UId RId PId) (u : Identified UV UId)
    (r : Identified RV RId) (val : Finset RId)
    (hm : s.data_user_roles (get_rbac_id u) = some val) :
    unassign_role s u r =
      (Except.ok (decide (get_rbac_id r ∈ val)),
       { s with data_user_roles :=
          (Function.update s.data_user_roles (get_rbac_id u)
            (if val.erase (get_rbac_id r) = ∅ then none
             else some (val.erase (get_rbac_id r)))) }) := by
  unfold unassign_role
  rw [hm]

lemma unassign_role_vacant (s : InMemoryRbac UId RId PId) (u : Identified UV UId)
    (r : Identified RV RId) (hm : s.data_user_roles (get_rbac_id u) = none) :
    unassign_role s u r = (Except.ok false, s) := by
  unfold unassign_role
  rw [hm]

lemma remove_permission_occupied (s : InMemoryRbac UId RId PId) (ro : Identified RV RId)
    (p : Identified PV PId) (val : Finset PId)
    (hm : s.data_role_permissions (get_rbac_id ro) = some val) :
    remove_permission s ro p =
      (Except.ok (decide (get_rbac_id p ∈ val)),
       { s with data_role_permissions :=
          (Function.update s.data_role_permissions (get_rbac_id ro)
            (if val.erase (get_rbac_id p) = ∅ then none
             else some (val.erase (get_rbac_id p)))) }) := by
  unfold remove_permission
  rw [hm]

lemma remove_permission_vacant (s : InMemoryRbac UId RId PId) (ro : Identified RV RId)
    (p : Identified PV PId) (hm : s.data_role_permissions (get_rbac_id ro) = none) :
    remove_permission s ro p = (Except.ok false, s) := by
  unfold remove_permission
  rw [hm]

lemma userRoleSet_of_some (s : InMemoryRbac UId RId PId) (uid : UId) (val : Finset RId)
    (hm : s.data_user_roles uid = some val) : userRoleSet s uid = val := by
  unfold userRoleSet
  rw [hm]
  rfl

lemma rolePermSet_of_some (s : InMemoryRbac UId RId PId) (rid : RId) (val : Finset PId)
    (hm : s.data_role_permissions rid = some val) : rolePermSet s rid = val := by
  unfold rolePermSet
  rw [hm]
  rfl

lemma role_set_contains_true_iff (s : InMemoryRbac UId RId PId) (pid : PId) (rid : RId) :
    role_set_contains s pid rid = true ↔ pid ∈ rolePermSet s rid := by
  unfold role_set_contains rolePermSet
  cases h : s.data_role_permissions rid <;> simp

lemma user_has_role_ok_iff (s : InMemoryRbac UId RId PId) (u : Identified UV UId)
    (r : Identified RV RId) :
    user_has_role s u r = Except.ok true ↔ get_rbac_id r ∈ userRoleSet s (get_rbac_id u) := by
  unfold user_has_role iter_user_role_ids userRoleSet
  cases h : s.data_user_roles (get_rbac_id u) <;> simp

lemma role_has_permission_ok_iff (s : InMemoryRbac UId RId PId) (r : Identified RV RId)
    (p : Identified PV PId) :
    role_has_permission s r p = Except.ok true ↔
      get_rbac_id p ∈ rolePermSet s (get_rbac_id r) := by
  unfold role_has_permission iter_role_permission_ids rolePermSet
  cases h : s.data_role_permissions (get_rbac_id r) <;> simp

lemma user_has_permission_ok_iff (s : InMemoryRbac UId RId PId) (u : Identified UV UId)
    (p : Identified PV PId) :
    user_has_permission s u p = Except.ok true ↔
      ∃ rid ∈ userRoleSet s (get_rbac_id u), get_rbac_id p ∈ rolePermSet s rid := by
  unfold user_has_permission userRoleSet
  cases h : s.data_user_roles (get_rbac_id u) <;>
    simp [role_set_contains_true_iff]

lemma user_has_role_total (s : InMemoryRbac UId RId PId) (u : Identified UV UId)
    (r : Identified RV RId) : ∃ b, user_has_role s u r = Except.ok b := by
  unfold user_has_role
  cases iter_user_role_ids s u <;> exact ⟨_, rfl⟩

lemma role_has_permission_total (s : InMemoryRbac UId RId PId) (r : Identified RV RId)
    (p : Identified PV PId) : ∃ b, role_has_permission s r p = Except.ok b := by
  unfold role_has_permission
  cases iter_role_permission_ids s r <;> exact ⟨_, rfl⟩

lemma user_has_permission_total (s : InMemoryRbac UId RId PId) (u : Identified UV UId)
    (p : Identified PV PId) : ∃ b, user_has_permission s u p = Except.ok b := by
  unfold user_has_permission
  cases s.data_user_roles (get_rbac_id u) <;> exact ⟨_, rfl⟩

lemma update_user_roles_eq_self (s : InMemoryRbac UId RId PId) (uid : UId)
    (v : Option (Finset RId)) (h : s.data_user_roles uid = v) :
    { s with data_user_roles := Function.update s.data_user_roles uid v } = s := by
  ext1
  · exact Function.update_eq_self_iff.mpr h.symm
  · rfl

lemma update_role_permissions_eq_self (s : InMemoryRbac UId RId PId) (rid : RId)
    (v : Option (Finset PId)) (h : s.data_role_permissions rid = v) :
    { s with data_role_permissions := Function.update s.data_role_permissions rid v } = s := by
  ext1
  · rfl
  · exact Function.update_eq_self_iff.mpr h.symm

/-! Claim theorems. -/

/-- Claim C8: on the store returned by `InMemoryRbac::new()`, for every
user, role and permission, `iter_user_role_ids` fails with
`UserHasNoRoles`, `iter_role_permission_ids` fails with
`RoleHasNoPermissions`, and `user_has_role`, `role_has_permission` and
`user_has_permission` all return `Ok(false)`. -/
theorem fresh_store_denies_everything (u : Identified UV UId) (r : Identified RV RId)
    (p : Identified PV PId) :
    iter_user_role_ids (InMemoryRbac.new : InMemoryRbac UId RId PId) u =
      Except.error InMemoryRbacError.UserHasNoRoles ∧
    iter_role_permission_ids (InMemoryRbac.new : InMemoryRbac UId RId PId) r =
      Except.error InMemoryRbacError.RoleHasNoPermissions ∧
    user_has_role (InMemoryRbac.new : InMemoryRbac UId RId PId) u r = Except.ok false ∧
    role_has_permission (InMemoryRbac.new : InMemoryRbac UId RId PId) r p = Except.ok false ∧
    user_has_permission (InMemoryRbac.new : InMemoryRbac UId RId PId) u p = Except.ok false :=
  ⟨rfl, rfl, rfl, rfl, rfl⟩

/-- Claim C4: `iter_user_role_ids(u)` returns `Err(UserHasNoRoles)` iff
the user's id is not a key of the user-role map, and otherwise returns
`Ok` of exactly the stored set of role ids (the sequence's de-duplicated,
order-free contents, which is what a `Finset` is); symmetric for
`iter_role_permission_ids` with `RoleHasNoPermissions`. -/
theorem iter_result_characterization (s : InMemoryRbac UId RId PId)
    (u : Identified UV UId) (r : Identified RV RId) :
    (iter_user_role_ids s u = Except.error InMemoryRbacError.UserHasNoRoles ↔
      s.data_user_roles (get_rbac_id u) = none) ∧
    (∀ S, s.data_user_roles (get_rbac_id u) = some S → iter_user_role_ids s u = Except.ok S) ∧
    (iter_role_permission_ids s r = Except.error InMemoryRbacError.RoleHasNoPermissions ↔
      s.data_role_permissions (get_rbac_id r) = none) ∧
    (∀ S, s.data_role_permissions (get_rbac_id r) = some S →
      iter_role_permission_ids s r = Except.ok S) := by
  unfold iter_user_role_ids iter_role_permission_ids
  cases hu : s.data_user_roles (get_rbac_id u) <;>
    cases hr : s.data_role_permissions (get_rbac_id r) <;> simp

/-- Witness for C4 at a concrete store: one user assigned one role, so the
user side is a present key and the role side an absent one. -/
theorem iter_result_characterization_witness :
    iter_user_role_ids
        (assign_role (InMemoryRbac.new : InMemoryRbac Nat Nat Nat)
          (Identified.mk 0 7) (Identified.mk 0 3)).2 (Identified.mk 0 7) =
      Except.ok {3} ∧
    iter_role_permission_ids
        (assign_role (InMemoryRbac.new : InMemoryRbac Nat Nat Nat)
          (Identified.mk 0 7) (Identified.mk 0 3)).2 (Identified.mk 0 3) =
      Except.error InMemoryRbacError.RoleHasNoPermissions := by
  refine ⟨(iter_result_characterization _ (Identified.mk 0 7) (Identified.mk 0 3)).2.1
    {3} (by decide), ?_⟩
  exact (iter_result_characterization
    (assign_role (InMemoryRbac.new : InMemoryRbac Nat Nat Nat)
      (Identified.mk 0 7) (Identified.mk 0 3)).2
    (Identified.mk 0 7) (Identified.mk 0 3)).2.2.1.mpr (by decide)

/-- Claim C5: `unassign_role` / `remove_permission` on an id absent from
the corresponding map return `Ok(false)` with the store untouched and never
an `Err`; the derived queries `user_has_role`, `role_has_permission` and
`user_has_permission` never return an `Err` on the in-memory store, and an
iteration error is mapped to `Ok(false)`, not propagated. -/
theorem unknown_entity_safety (s : InMemoryRbac UId RId PId) (u : Identified UV UId)
    (r : Identified RV RId) (ro : Identified RV RId) (p : Identified PV PId) :
    (s.data_user_roles (get_rbac_id u) = none →
      unassign_role s u r = (Except.ok false, s)) ∧
    (s.data_role_permissions (get_rbac_id ro) = none →
      remove_permission s ro p = (Except.ok false, s)) ∧
    (∃ b, (unassign_role s u r).1 = Except.ok b) ∧
    (∃ b, (remove_permission s ro p).1 = Except.ok b) ∧
    (∃ b, user_has_role s u r = Except.ok b) ∧
    (∃ b, role_has_permission s ro p = Except.ok b) ∧
    (∃ b, user_has_permission s u p = Except.ok b) ∧
    (∀ e, iter_user_role_ids s u = Except.error e → user_has_role s u r = Except.ok false) ∧
    (∀ e, iter_role_permission_ids s ro = Except.error e →
      role_has_permission s ro p = Except.ok false) := by
  refine ⟨?_, ?_, ?_, ?_, user_has_role_total s u r, role_has_permission_total s ro p,
    user_has_permission_total s u p, ?_, ?_⟩
  · intro h
    unfold unassign_role
    rw [h]
  · intro h
    unfold remove_permission
    rw [h]
  · unfold unassign_role
    cases s.data_user_roles (get_rbac_id u) <;> exact ⟨_, rfl⟩
  · unfold remove_permission
    cases s.data_role_permissions (get_rbac_id ro) <;> exact ⟨_, rfl⟩
  · intro e he
    unfold user_has_role
    rw [he]
  · intro e he
    unfold role_has_permission
    rw [he]

/-- Witness for C5 on the fresh store, every id unknown: removal
operations return `Ok(false)` and the derived queries answer `Ok(false)`. -/
theorem unknown_entity_safety_witness :
    unassign_role (InMemoryRbac.new : InMemoryRbac Nat Nat Nat)
        (Identified.mk 0 1) (Identified.mk 0 2) =
      (Except.ok false, InMemoryRbac.new) ∧
    remove_permission (InMemoryRbac.new : InMemoryRbac Nat Nat Nat)
        (Identified.mk 0 2) (Identified.mk 0 3) =
      (Except.ok false, InMemoryRbac.new) ∧
    user_has_role (InMemoryRbac.new : InMemoryRbac Nat Nat Nat)
        (Identified.mk 0 1) (Identified.mk 0 2) = Except.ok false := by
  have h := unknown_entity_safety (InMemoryRbac.new : InMemoryRbac Nat Nat Nat)
    (Identified.mk 0 1) (Identified.mk 0 2) (Identified.mk 0 2) (Identified.mk 0 3)
  exact ⟨h.1 rfl, h.2.1 rfl, h.2.2.2.2.2.2.2.1 InMemoryRbacError.UserHasNoRoles rfl⟩

/-- Claim C10: `assign_role` and `unassign_role` leave the
role-permission map unchanged, and `add_permission` and
`remove_permission` leave the user-role map unchanged; in particular
`remove_permission` (even when it prunes a role's entry) changes no
user's role set. -/
theorem relation_maps_independent (s : InMemoryRbac UId RId PId) (u : Identified UV UId)
    (r : Identified RV RId) (ro : Identified RV RId) (p : Identified PV PId) :
    (assign_role s u r).2.data_role_permissions = s.data_role_permissions ∧
    (unassign_role s u r).2.data_role_permissions = s.data_role_permissions ∧
    (add_permission s ro p).2.data_user_roles = s.data_user_roles ∧
    (remove_permission s ro p).2.data_user_roles = s.data_user_roles ∧
    userRoleSet (remove_permission s ro p).2 = userRoleSet s := by
  refine ⟨rfl, ?_, rfl, ?_, ?_⟩
  · unfold unassign_role
    cases s.data_user_roles (get_rbac_id u) <;> rfl
  · unfold remove_permission
    cases s.data_role_permissions (get_rbac_id ro) <;> rfl
  · unfold userRoleSet remove_permission
    cases s.data_role_permissions (get_rbac_id ro) <;> rfl

/-- Claim C7: every operation of the store consults its entity arguments
only through `get_rbac_id`: two calls on the same state with entities of
equal ids return equal results and equal resulting states. -/
theorem id_only_dependence (s : InMemoryRbac UId RId PId)
    (u1 u2 : Identified UV UId) (r1 r2 : Identified RV RId) (p1 p2 : Identified PV PId)
    (hu : get_rbac_id u1 = get_rbac_id u2) (hr : get_rbac_id r1 = get_rbac_id r2)
    (hp : get_rbac_id p1 = get_rbac_id p2) :
    assign_role s u1 r1 = assign_role s u2 r2 ∧
    unassign_role s u1 r1 = unassign_role s u2 r2 ∧
    add_permission s r1 p1 = add_permission s r2 p2 ∧
    remove_permission s r1 p1 = remove_permission s r2 p2 ∧
    user_has_role s u1 r1 = user_has_role s u2 r2 ∧
    role_has_permission s r1 p1 = role_has_permission s r2 p2 ∧
    user_has_permission s u1 p1 = user_has_permission s u2 p2 ∧
    iter_user_role_ids s u1 = iter_user_role_ids s u2 ∧
    iter_role_permission_ids s r1 = iter_role_permission_ids s r2 := by
  unfold assign_role unassign_role add_permission remove_permission user_has_role
    role_has_permission user_has_permission iter_user_role_ids iter_role_permission_ids
  rw [hu, hr, hp]
  exact ⟨rfl, rfl, rfl, rfl, rfl, rfl, rfl, rfl, rfl⟩

/-- Witness for C7: entities with distinct values but equal ids are
interchangeable in every operation, here shown on a store where user 5
holds role 6. -/
theorem id_only_dependence_witness :
    get_rbac_id (Identified.mk 10 5) = get_rbac_id (Identified.mk 99 5) ∧
    user_has_role (assign_role (InMemoryRbac.new : InMemoryRbac Nat Nat Nat)
        (Identified.mk 10 5) (Identified.mk 20 6)).2
        (Identified.mk 10 5) (Identified.mk 20 6) =
      user_has_role (assign_role (InMemoryRbac.new : InMemoryRbac Nat Nat Nat)
        (Identified.mk 10 5) (Identified.mk 20 6)).2
        (Identified.mk 99 5) (Identified.mk 88 6) := by
  refine ⟨rfl, ?_⟩
  exact (id_only_dependence _ (Identified.mk 10 5) (Identified.mk 99 5)
    (Identified.mk 20 6) (Identified.mk 88 6) (Identified.mk 30 7) (Identified.mk 77 7)
    rfl rfl rfl).2.2.2.2.1

/-- Claim C3: `assign_role(u, r)` returns `Ok(true)` exactly when `r`'s id
was not already in `u`'s role set and `Ok(false)` when it was; a second
consecutive call therefore returns `Ok(false)` and leaves the state
unchanged; the analogous property holds for `add_permission`. -/
theorem insertion_idempotence (s : InMemoryRbac UId RId PId) (u : Identified UV UId)
    (r : Identified RV RId) (ro : Identified RV RId) (p : Identified PV PId) :
    ((assign_role s u r).1 = Except.ok true ↔
      get_rbac_id r ∉ userRoleSet s (get_rbac_id u)) ∧
    ((assign_role s u r).1 = Except.ok false ↔
      get_rbac_id r ∈ userRoleSet s (get_rbac_id u)) ∧
    (assign_role (assign_role s u r).2 u r).1 = Except.ok false ∧
    (assign_role (assign_role s u r).2 u r).2 = (assign_role s u r).2 ∧
    ((add_permission s ro p).1 = Except.ok true ↔
      get_rbac_id p ∉ rolePermSet s (get_rbac_id ro)) ∧
    ((add_permission s ro p).1 = Except.ok false ↔
      get_rbac_id p ∈ rolePermSet s (get_rbac_id ro)) ∧
    (add_permission (add_permission s ro p).2 ro p).1 = Except.ok false ∧
    (add_permission (add_permission s ro p).2 ro p).2 = (add_permission s ro p).2 := by
  have hma : (assign_role s u r).2.data_user_roles (get_rbac_id u) =
      some (insert (get_rbac_id r) (userRoleSet s (get_rbac_id u))) := by
    unfold assign_role userRoleSet
    exact Function.update_same _ _ _
  have hmp : (add_permission s ro p).2.data_role_permissions (get_rbac_id ro) =
      some (insert (get_rbac_id p) (rolePermSet s (get_rbac_id ro))) := by
    unfold add_permission rolePermSet
    exact Function.update_same _ _ _
  refine ⟨?_, ?_, ?_, ?_, ?_, ?_, ?_, ?_⟩
  · unfold assign_role userRoleSet
    simp
  · unfold assign_role userRoleSet
    simp
  · show Except.ok (decide (get_rbac_id r ∉
      ((assign_role s u r).2.data_user_roles (get_rbac_id u)).getD ∅)) = Except.ok false
    rw [hma]
    simp
  · refine update_user_roles_eq_self _ (get_rbac_id u) _ ?_
    rw [hma]
    simp [Finset.insert_idem]
  · unfold add_permission rolePermSet
    simp
  · unfold add_permission rolePermSet
    simp
  · show Except.ok (decide (get_rbac_id p ∉
      ((add_permission s ro p).2.data_role_permissions (get_rbac_id ro)).getD ∅)) =
        Except.ok false
    rw [hmp]
    simp
  · refine update_role_permissions_eq_self _ (get_rbac_id ro) _ ?_
    rw [hmp]
    simp [Finset.insert_idem]

/-- Claim C1: `user_has_permission(u, p)` returns `Ok(true)` iff some role
entity `r` satisfies both `user_has_role(u, r) == Ok(true)` and
`role_has_permission(r, p) == Ok(true)`; a user with no roles, or whose
roles each lack the permission, yields `Ok(false)`. -/
theorem user_has_permission_transitive (s : InMemoryRbac UId RId PId)
    (u : Identified UV UId) (p : Identified PV PId) (rv : RV) :
    (user_has_permission s u p = Except.ok true ↔
      ∃ r : Identified RV RId, user_has_role s u r = Except.ok true ∧
        role_has_permission s r p = Except.ok true) ∧
    (s.data_user_roles (get_rbac_id u) = none →
      user_has_permission s u p = Except.ok false) ∧
    ((∀ rid ∈ userRoleSet s (get_rbac_id u), get_rbac_id p ∉ rolePermSet s rid) →
      user_has_permission s u p = Except.ok false) := by
  refine ⟨?_, ?_, ?_⟩
  · rw [user_has_permission_ok_iff]
    constructor
    · rintro ⟨rid, hmem, hin⟩
      exact ⟨Identified.mk rv rid, (user_has_role_ok_iff s u (Identified.mk rv rid)).mpr hmem,
        (role_has_permission_ok_iff s (Identified.mk rv rid) p).mpr hin⟩
    · rintro ⟨r, h1, h2⟩
      exact ⟨get_rbac_id r, (user_has_role_ok_iff s u r).mp h1,
        (role_has_permission_ok_iff s r p).mp h2⟩
  · intro h
    unfold user_has_permission
    rw [h]
  · intro h
    rcases user_has_permission_total s u p with ⟨b, hb⟩
    cases b
    · exact hb
    · exact absurd ((user_has_permission_ok_iff s u p).mp hb)
        (by rintro ⟨rid, hmem, hin⟩; exact h rid hmem hin)

/-- Witness for C1, the scenario of the spec: user 10 holds role 113 which
carries permission 213, so `user_has_permission` answers `Ok(true)` through
the existential join, while the role-less user 14 gets `Ok(false)`. -/
theorem user_has_permission_transitive_witness :
    user_has_permission
        (add_permission (assign_role (InMemoryRbac.new : InMemoryRbac Nat Nat Nat)
          (Identified.mk 0 10) (Identified.mk 0 113)).2
          (Identified.mk 0 113) (Identified.mk 0 213)).2
        (Identified.mk 0 10) (Identified.mk 0 213) = Except.ok true ∧
    user_has_permission
        (add_permission (assign_role (InMemoryRbac.new : InMemoryRbac Nat Nat Nat)
          (Identified.mk 0 10) (Identified.mk 0 113)).2
          (Identified.mk 0 113) (Identified.mk 0 213)).2
        (Identified.mk 0 14) (Identified.mk 0 213) = Except.ok false := by
  constructor
  · exact (user_has_permission_transitive _ (Identified.mk 0 10)
      (Identified.mk 0 213) 0).1.mpr
      ⟨Identified.mk 0 113,
        (user_has_role_ok_iff _ _ _).mpr (by decide),
        (role_has_permission_ok_iff _ _ _).mpr (by decide)⟩
  · exact (user_has_permission_transitive _ (Identified.mk 0 14)
      (Identified.mk 0 213) 0).2.1 (by decide)

lemma pruned_new : Pruned (InMemoryRbac.new : InMemoryRbac UId RId PId) :=
  ⟨fun _ _ h => Option.noConfusion h, fun _ _ h => Option.noConfusion h⟩

lemma pruned_assign (s : InMemoryRbac UId RId PId) (u : Identified UV UId)
    (r : Identified RV RId) (hs : Pruned s) : Pruned (assign_role s u r).2 := by
  rw [assign_role_eq]
  refine ⟨fun uid S hS => ?_, hs.2⟩
  dsimp only at hS
  by_cases huid : uid = get_rbac_id u
  · subst huid
    rw [Function.update_same] at hS
    injection hS with h2
    rw [← h2]
    exact Finset.insert_ne_empty _ _
  · rw [Function.update_noteq huid] at hS
    exact hs.1 uid S hS

lemma pruned_unassign (s : InMemoryRbac UId RId PId) (u : Identified UV UId)
    (r : Identified RV RId) (hs : Pruned s) : Pruned (unassign_role s u r).2 := by
  cases hm : s.data_user_roles (get_rbac_id u) with
  | none => rw [unassign_role_vacant s u r hm]; exact hs
  | some val =>
      rw [unassign_role_occupied s u r val hm]
      refine ⟨fun uid S hS => ?_, hs.2⟩
      dsimp only at hS
      by_cases huid : uid = get_rbac_id u
      · subst huid
        rw [Function.update_same] at hS
        by_cases hif : val.erase (get_rbac_id r) = ∅
        · rw [if_pos hif] at hS
          exact Option.noConfusion hS
        · rw [if_neg hif] at hS
          injection hS with h2
          rw [← h2]
          exact hif
      · rw [Function.update_noteq huid] at hS
        exact hs.1 uid S hS

lemma pruned_add_permission (s : InMemoryRbac UId RId PId) (ro : Identified RV RId)
    (p : Identified PV PId) (hs : Pruned s) : Pruned (add_permission s ro p).2 := by
  rw [add_permission_eq]
  refine ⟨hs.1, fun rid S hS => ?_⟩
  dsimp only at hS
  by_cases hrid : rid = get_rbac_id ro
  · subst hrid
    rw [Function.update_same] at hS
    injection hS with h2
    rw [← h2]
    exact Finset.insert_ne_empty _ _
  · rw [Function.update_noteq hrid] at hS
    exact hs.2 rid S hS

lemma pruned_remove_permission (s : InMemoryRbac UId RId PId) (ro : Identified RV RId)
    (p : Identified PV PId) (hs : Pruned s) : Pruned (remove_permission s ro p).2 := by
  cases hm : s.data_role_permissions (get_rbac_id ro) with
  | none => rw [remove_permission_vacant s ro p hm]; exact hs
  | some val =>
      rw [remove_permission_occupied s ro p val hm]
      refine ⟨hs.1, fun rid S hS => ?_⟩
      dsimp only at hS
      by_cases hrid : rid = get_rbac_id ro
      · subst hrid
        rw [Function.update_same] at hS
        by_cases hif : val.erase (get_rbac_id p) = ∅
        · rw [if_pos hif] at hS
          exact Option.noConfusion hS
        · rw [if_neg hif] at hS
          injection hS with h2
          rw [← h2]
          exact hif
      · rw [Function.update_noteq hrid] at hS
        exact hs.2 rid S hS

lemma reachable_pruned (s : InMemoryRbac UId RId PId) (h : Reachable s) : Pruned s := by
  induction h with
  | new => exact pruned_new
  | assign s1 u r _ ih => exact pruned_assign s1 u r ih
  | unassign s1 u r _ ih => exact pruned_unassign s1 u r ih
  | addPerm s1 ro p _ ih => exact pruned_add_permission s1 ro p ih
  | removePerm s1 ro p _ ih => exact pruned_remove_permission s1 ro p ih

lemma lastRolePrunes_all (s : InMemoryRbac UId RId PId) : LastRolePrunes s := by
  intro u r hm
  rw [unassign_role_occupied s u r {get_rbac_id r} hm]
  unfold iter_user_role_ids
  dsimp only
  rw [Function.update_same]
  have he : ({get_rbac_id r} : Finset RId).erase (get_rbac_id r) = ∅ := by simp
  rw [he, if_pos rfl]

lemma lastPermissionPrunes_all (s : InMemoryRbac UId RId PId) : LastPermissionPrunes s := by
  intro r p hm
  rw [remove_permission_occupied s r p {get_rbac_id p} hm]
  unfold iter_role_permission_ids
  dsimp only
  rw [Function.update_same]
  have he : ({get_rbac_id p} : Finset PId).erase (get_rbac_id p) = ∅ := by simp
  rw [he, if_pos rfl]

/-- Claim C2: every store state reachable from `InMemoryRbac::new()` by
the four mutations keeps a key in a relation map iff its set is non-empty
(`Pruned`); consequently removing a user's last role (resp. a role's last
permission) makes the subsequent iteration fail with `UserHasNoRoles`
(resp. `RoleHasNoPermissions`) rather than yield an empty sequence. -/
theorem pruning_invariant_reachable (s : InMemoryRbac UId RId PId) (h : Reachable s) :
    Pruned s ∧ LastRolePrunes s ∧ LastPermissionPrunes s :=
  ⟨reachable_pruned s h, lastRolePrunes_all s, lastPermissionPrunes_all s⟩

/-- Witness for C2 at the reachable state in which user 1 holds role 2:
the invariant holds there and unassigning role 2 prunes the entry. -/
theorem pruning_invariant_reachable_witness :
    Pruned (assign_role (InMemoryRbac.new : InMemoryRbac Nat Nat Nat)
      (Identified.mk () 1) (Identified.mk () 2)).2 ∧
    LastRolePrunes (assign_role (InMemoryRbac.new : InMemoryRbac Nat Nat Nat)
      (Identified.mk () 1) (Identified.mk () 2)).2 ∧
    LastPermissionPrunes (assign_role (InMemoryRbac.new : InMemoryRbac Nat Nat Nat)
      (Identified.mk () 1) (Identified.mk () 2)).2 :=
  pruning_invariant_reachable _
    (Reachable.assign InMemoryRbac.new (Identified.mk () 1) (Identified.mk () 2) Reachable.new)

/-- Counterexample to claim C6 as stated: on the store where user 1
already holds role 2, `assign_role` is a no-op (`Ok(false)`) but the
following `unassign_role` removes the role and prunes the entry, so the
pre-assignment state is not restored. -/
theorem round_trip_counterexample :
    ¬ ((unassign_role (assign_role
          (assign_role (InMemoryRbac.new : InMemoryRbac Nat Nat Nat)
            (Identified.mk 0 1) (Identified.mk 0 2)).2
          (Identified.mk 0 1) (Identified.mk 0 2)).2
          (Identified.mk 0 1) (Identified.mk 0 2)).2 =
        (assign_role (InMemoryRbac.new : InMemoryRbac Nat Nat Nat)
          (Identified.mk 0 1) (Identified.mk 0 2)).2) := by
  intro h
  exact absurd (congrFun (congrArg InMemoryRbac.data_user_roles h) 1) (by decide)

/-- Claim C6 amended: when role `r` is not currently assigned to `u`
(`user_has_role` answers `Ok(false)`) and `u`'s entry respects the pruning
invariant (as every reachable state does), `assign_role(u, r)` followed by
`unassign_role(u, r)` restores the pre-assignment store state exactly, so
a subsequent `iter_user_role_ids(u)` behaves as if `r` was never assigned,
including failing with `UserHasNoRoles` if `r` was `u`'s only role. -/
theorem round_trip_restores (s : InMemoryRbac UId RId PId) (u : Identified UV UId)
    (r : Identified RV RId)
    (hpr : ∀ S, s.data_user_roles (get_rbac_id u) = some S → S ≠ ∅)
    (h : user_has_role s u r = Except.ok false) :
    (unassign_role (assign_role s u r).2 u r).2 = s ∧
    iter_user_role_ids (unassign_role (assign_role s u r).2 u r).2 u =
      iter_user_role_ids s u := by
  have hmem : get_rbac_id r ∉ userRoleSet s (get_rbac_id u) := by
    intro hm
    have h2 := (user_has_role_ok_iff s u r).mpr hm
    rw [h] at h2
    simp at h2
  have hm1 : (assign_role s u r).2.data_user_roles (get_rbac_id u) =
      some (insert (get_rbac_id r) (userRoleSet s (get_rbac_id u))) := by
    rw [assign_role_eq]
    exact Function.update_same _ _ _
  have hstate : (unassign_role (assign_role s u r).2 u r).2 = s := by
    rw [unassign_role_occupied _ u r _ hm1]
    dsimp only
    rw [Finset.erase_insert hmem]
    ext1
    · show Function.update ((assign_role s u r).2.data_user_roles) (get_rbac_id u)
        (if userRoleSet s (get_rbac_id u) = ∅ then none
         else some (userRoleSet s (get_rbac_id u))) = s.data_user_roles
      rw [assign_role_eq]
      dsimp only
      rw [Function.update_idem]
      refine Function.update_eq_self_iff.mpr ?_
      unfold userRoleSet
      cases hm : s.data_user_roles (get_rbac_id u) with
      | none => simp
      | some S =>
          have hne := hpr S hm
          simp [hne]
    · rfl
  exact ⟨hstate, by rw [hstate]⟩

/-- Witness for the amended C6: starting from the fresh store (where no
role is assigned), assigning then unassigning role 2 for user 1 restores
the fresh store exactly. -/
theorem round_trip_restores_witness :
    user_has_role (InMemoryRbac.new : InMemoryRbac Nat Nat Nat)
        (Identified.mk 0 1) (Identified.mk 0 2) = Except.ok false ∧
    (unassign_role (assign_role (InMemoryRbac.new : InMemoryRbac Nat Nat Nat)
        (Identified.mk 0 1) (Identified.mk 0 2)).2
        (Identified.mk 0 1) (Identified.mk 0 2)).2 = InMemoryRbac.new :=
  ⟨rfl, (round_trip_restores InMemoryRbac.new (Identified.mk 0 1) (Identified.mk 0 2)
    (fun _ hS => Option.noConfusion hS) rfl).1⟩

/-- Claim C9: on any store satisfying the pruning invariant (which every
reachable store does), each mutation returns `Ok(false)` only when it
leaves the state exactly unchanged, returns `Ok(true)` only when it
toggles exactly the one requested membership on its own map (with the
entry creation or pruning the invariant requires) while leaving the other
map untouched, and never returns `Err`. -/
theorem mutation_result_reflects_state_change (s : InMemoryRbac UId RId PId)
    (u : Identified UV UId) (r : Identified RV RId) (ro : Identified RV RId)
    (p : Identified PV PId) (hs : Pruned s) :
    ((assign_role s u r).1 = Except.ok false → (assign_role s u r).2 = s) ∧
    ((assign_role s u r).1 = Except.ok true →
      get_rbac_id r ∉ userRoleSet s (get_rbac_id u) ∧
      (assign_role s u r).2.data_user_roles =
        Function.update s.data_user_roles (get_rbac_id u)
          (some (insert (get_rbac_id r) (userRoleSet s (get_rbac_id u)))) ∧
      (assign_role s u r).2.data_role_permissions = s.data_role_permissions) ∧
    ((unassign_role s u r).1 = Except.ok false → (unassign_role s u r).2 = s) ∧
    ((unassign_role s u r).1 = Except.ok true →
      get_rbac_id r ∈ userRoleSet s (get_rbac_id u) ∧
      (unassign_role s u r).2.data_user_roles =
        Function.update s.data_user_roles (get_rbac_id u)
          (if (userRoleSet s (get_rbac_id u)).erase (get_rbac_id r) = ∅ then none
           else some ((userRoleSet s (get_rbac_id u)).erase (get_rbac_id r))) ∧
      (unassign_role s u r).2.data_role_permissions = s.data_role_permissions) ∧
    ((add_permission s ro p).1 = Except.ok false → (add_permission s ro p).2 = s) ∧
    ((add_permission s ro p).1 = Except.ok true →
      get_rbac_id p ∉ rolePermSet s (get_rbac_id ro) ∧
      (add_permission s ro p).2.data_role_permissions =
        Function.update s.data_role_permissions (get_rbac_id ro)
          (some (insert (get_rbac_id p) (rolePermSet s (get_rbac_id ro)))) ∧
      (add_permission s ro p).2.data_user_roles = s.data_user_roles) ∧
    ((remove_permission s ro p).1 = Except.ok false → (remove_permission s ro p).2 = s) ∧
    ((remove_permission s ro p).1 = Except.ok true →
      get_rbac_id p ∈ rolePermSet s (get_rbac_id ro) ∧
      (remove_permission s ro p).2.data_role_permissions =
        Function.update s.data_role_permissions (get_rbac_id ro)
          (if (rolePermSet s (get_rbac_id ro)).erase (get_rbac_id p) = ∅ then none
           else some ((rolePermSet s (get_rbac_id ro)).erase (get_rbac_id p))) ∧
      (remove_permission s ro p).2.data_user_roles = s.data_user_roles) ∧
    (∃ b, (assign_role s u r).1 = Except.ok b) ∧
    (∃ b, (unassign_role s u r).1 = Except.ok b) ∧
    (∃ b, (add_permission s ro p).1 = Except.ok b) ∧
    (∃ b, (remove_permission s ro p).1 = Except.ok b) := by
  refine ⟨?_, ?_, ?_, ?_, ?_, ?_, ?_, ?_, ⟨_, rfl⟩, ?_, ⟨_, rfl⟩, ?_⟩
  · intro hfalse
    rw [assign_role_eq] at hfalse
    dsimp only at hfalse
    simp only [Except.ok.injEq, decide_eq_false_iff_not, not_not] at hfalse
    have hfu : s.data_user_roles (get_rbac_id u) = some (userRoleSet s (get_rbac_id u)) := by
      unfold userRoleSet at hfalse ⊢
      cases hm : s.data_user_roles (get_rbac_id u) with
      | none =>
          rw [hm] at hfalse
          simp at hfalse
      | some S => rfl
    rw [assign_role_eq]
    refine update_user_roles_eq_self s (get_rbac_id u) _ ?_
    rw [Finset.insert_eq_self.mpr hfalse]
    exact hfu
  · intro htrue
    rw [assign_role_eq] at htrue
    dsimp only at htrue
    simp only [Except.ok.injEq, decide_eq_true_eq] at htrue
    exact ⟨htrue, by rw [assign_role_eq], rfl⟩
  · intro hfalse
    cases hm : s.data_user_roles (get_rbac_id u) with
    | none => rw [unassign_role_vacant s u r hm]
    | some val =>
        rw [unassign_role_occupied s u r val hm] at hfalse ⊢
        dsimp only at hfalse ⊢
        simp only [Except.ok.injEq, decide_eq_false_iff_not] at hfalse
        rw [Finset.erase_eq_self.mpr hfalse, if_neg (hs.1 _ val hm)]
        exact update_user_roles_eq_self s (get_rbac_id u) (some val) hm
  · intro htrue
    cases hm : s.data_user_roles (get_rbac_id u) with
    | none =>
        rw [unassign_role_vacant s u r hm] at htrue
        simp at htrue
    | some val =>
        rw [unassign_role_occupied s u r val hm] at htrue ⊢
        dsimp only at htrue ⊢
        simp only [Except.ok.injEq, decide_eq_true_eq] at htrue
        rw [userRoleSet_of_some s (get_rbac_id u) val hm]
        exact ⟨htrue, rfl, rfl⟩
  · intro hfalse
    rw [add_permission_eq] at hfalse
    dsimp only at hfalse
    simp only [Except.ok.injEq, decide_eq_false_iff_not, not_not] at hfalse
    have hfp : s.data_role_permissions (get_rbac_id ro) =
        some (rolePermSet s (get_rbac_id ro)) := by
      unfold rolePermSet at hfalse ⊢
      cases hm : s.data_role_permissions (get_rbac_id ro) with
      | none =>
          rw [hm] at hfalse
          simp at hfalse
      | some S => rfl
    rw [add_permission_eq]
    refine update_role_permissions_eq_self s (get_rbac_id ro) _ ?_
    rw [Finset.insert_eq_self.mpr hfalse]
    exact hfp
  · intro htrue
    rw [add_permission_eq] at htrue
    dsimp only at htrue
    simp only [Except.ok.injEq, decide_eq_true_eq] at htrue
    exact ⟨htrue, by rw [add_permission_eq], rfl⟩
  · intro hfalse
    cases hm : s.data_role_permissions (get_rbac_id ro) with
    | none => rw [remove_permission_vacant s ro p hm]
    | some val =>
        rw [remove_permission_occupied s ro p val hm] at hfalse ⊢
        dsimp only at hfalse ⊢
        simp only [Except.ok.injEq, decide_eq_false_iff_not] at hfalse
        rw [Finset.erase_eq_self.mpr hfalse, if_neg (hs.2 _ val hm)]
        exact update_role_permissions_eq_self s (get_rbac_id ro) (some val) hm
  · intro htrue
    cases hm : s.data_role_permissions (get_rbac_id ro) with
    | none =>
        rw [remove_permission_vacant s ro p hm] at htrue
        simp at htrue
    | some val =>
        rw [remove_permission_occupied s ro p val hm] at htrue ⊢
        dsimp only at htrue ⊢
        simp only [Except.ok.injEq, decide_eq_true_eq] at htrue
        rw [rolePermSet_of_some s (get_rbac_id ro) val hm]
        exact ⟨htrue, rfl, rfl⟩
  · cases hm : s.data_user_roles (get_rbac_id u) with
    | none => rw [unassign_role_vacant s u r hm]; exact ⟨_, rfl⟩
    | some val => rw [unassign_role_occupied s u r val hm]; exact ⟨_, rfl⟩
  · cases hm : s.data_role_permissions (get_rbac_id ro) with
    | none => rw [remove_permission_vacant s ro p hm]; exact ⟨_, rfl⟩
    | some val => rw [remove_permission_occupied s ro p val hm]; exact ⟨_, rfl⟩

/-- Witness for C9 on the fresh store (which is pruned): assigning role 2
to user 1 reports `Ok(true)` and leaves the permission map untouched, and
unassigning a role never present reports `Ok(false)` and leaves the store
unchanged. -/
theorem mutation_result_reflects_state_change_witness :
    Pruned (InMemoryRbac.new : InMemoryRbac Nat Nat Nat) ∧
    (assign_role (InMemoryRbac.new : InMemoryRbac Nat Nat Nat) (Identified.mk 0 1)
        (Identified.mk 0 2)).1 = Except.ok true ∧
    (assign_role (InMemoryRbac.new : InMemoryRbac Nat Nat Nat) (Identified.mk 0 1)
        (Identified.mk 0 2)).2.data_role_permissions =
      (InMemoryRbac.new : InMemoryRbac Nat Nat Nat).data_role_permissions ∧
    (unassign_role (InMemoryRbac.new : InMemoryRbac Nat Nat Nat) (Identified.mk 0 1)
        (Identified.mk 0 2)).2 = InMemoryRbac.new := by
  have h := mutation_result_reflects_state_change
    (InMemoryRbac.new : InMemoryRbac Nat Nat Nat) (Identified.mk 0 1) (Identified.mk 0 2)
    (Identified.mk 0 2) (Identified.mk 0 3) pruned_new
  exact ⟨pruned_new, rfl, (h.2.1 rfl).2.2, h.2.2.1 rfl⟩

end Rbac
